import Mathlib

/-!
Shallow embedding of the coconut-strike risk calculator in src/src/App.jsx.

The single source file of the repository contains two variants of the React
component, separated by a document marker:

* variant 1 (lines 1-323): linear wind formula with a random jitter term
  (coconutProbability), a tier function (dangerLevel), a five-sample wind
  history, and a fetch pipeline storing windSpeed and treeDensity;
* variant 2 (lines 324-450): power-law multi-factor formula
  (calculateDanger) over a five-field weather snapshot, with a manual
  tree-count mode.

JavaScript numbers are modelled as real numbers.  toFixed(1) returns a
string; every place the program uses that string is either display or a
numeric comparison that coerces it back to its numeric value, so it is
modelled by roundTo1, rounding to one decimal digit with ties away from
zero upward, exactly the value the returned string denotes.  Math.random()
is modelled as an explicit extra argument (its drawn value in [0,1)).
Math.pow(x, 1.5) is modelled by real rpow; the two coincide on the
non-negative wind speeds the weather service returns.  Each asynchronous
fetchData run is modelled as one state transition whose external responses
are an explicit outcome argument; fields that are purely presentational
(fact index, chart, text-field contents) are omitted from the state.
-/

noncomputable section

/-- Result of a JavaScript numeric parse: NaN, an infinity, or a finite value. -/
inductive JsNumber where
  | nan : JsNumber
  | inf : JsNumber
  | ninf : JsNumber
  | num : ℝ → JsNumber

/-- JavaScript isNaN on a parsed number. -/
def jsIsNaN : JsNumber → Bool
  | JsNumber.nan => true
  | _ => false

/-- JavaScript Number.isFinite on a parsed number. -/
def jsIsFinite : JsNumber → Bool
  | JsNumber.num _ => true
  | _ => false

/-- Numeric value of the string produced by Number.prototype.toFixed(1):
the integer closest to 10*x (ties upward), divided by 10. -/
def roundTo1 (x : ℝ) : ℝ := ((round (10 * x) : ℤ) : ℝ) / 10

/-- Timestamp suffix selecting the midday hourly samples (App.jsx:99). -/
def noonSuffix : String := "12:00"

/-- Loop at App.jsx:97-102: keep the wind speeds whose timestamp ends in
"12:00", in response order. -/
def middaySpeeds (hours : List String) (speeds : List ℝ) : List ℝ :=
  ((hours.zip speeds).filter (fun p => p.fst.endsWith noonSuffix)).map Prod.snd

/-- Array.prototype.slice(-5): the suffix of the last five elements
(App.jsx:103). -/
def jsSliceLast5 (l : List ℝ) : List ℝ := l.drop (l.length - 5)

/-- Expression treeJson.elements?.length || 5 (App.jsx:110,394): a missing
elements field or a zero length falls back to 5. -/
def jsOrElse5 (elements : Option ℕ) : ℝ :=
  match elements with
  | some n => if n = 0 then 5 else (n : ℝ)
  | none => 5

/-- Fields consumed from the forecast response by variant 1: the optional
current_weather.windspeed and the optional hourly time/wind arrays. -/
structure WeatherPayload where
  current_weather : Option ℝ
  hourly : Option (List String × List ℝ)

/-- Outcome of the awaited calls inside the single try block of fetchData in
variant 1: the weather fetch throws, the tree fetch throws after the
weather part completed, or everything settles with an optional elements
count. -/
inductive FetchOutcome1 where
  | weatherFail : FetchOutcome1
  | treeFail : WeatherPayload → FetchOutcome1
  | ok : WeatherPayload → Option ℕ → FetchOutcome1

/-- Current-weather wind speed carried by a variant-1 outcome, if any. -/
def currentOf1 : FetchOutcome1 → Option ℝ
  | FetchOutcome1.weatherFail => none
  | FetchOutcome1.treeFail w => w.current_weather
  | FetchOutcome1.ok w _ => w.current_weather

/-- Hourly payload carried by a variant-1 outcome, if any. -/
def hourlyOf1 : FetchOutcome1 → Option (List String × List ℝ)
  | FetchOutcome1.weatherFail => none
  | FetchOutcome1.treeFail w => w.hourly
  | FetchOutcome1.ok w _ => w.hourly

/-- React state of variant 1 (App.jsx:62-70). -/
structure AppState1 where
  coords : Option (JsNumber × JsNumber)
  windSpeed : Option ℝ
  treeDensity : Option ℝ
  timeExposure : ℝ
  windHistory : List ℝ
  isLoading : Bool

/-- Initial state of variant 1: useState(null) three times, exposure 30,
empty history. -/
def initialState1 : AppState1 :=
  { coords := none, windSpeed := none, treeDensity := none,
    timeExposure := 30, windHistory := [], isLoading := false }

/-- Variant 1 fetchData (App.jsx:73-117) as one state transition.  setCoords
runs first inside try; on a weather failure the catch sets treeDensity to
5 and nothing else changed; on a tree failure the weather updates already
applied stand; finally clears isLoading. -/
def fetchData1 (s : AppState1) (lat lon : JsNumber) (o : FetchOutcome1) : AppState1 :=
  match o with
  | FetchOutcome1.weatherFail =>
      { s with coords := some (lat, lon), treeDensity := some 5, isLoading := false }
  | FetchOutcome1.treeFail w =>
      let s1 := { s with coords := some (lat, lon) }
      let s2 := match w.current_weather with
        | some ws => { s1 with windSpeed := some ws }
        | none => s1
      let s3 := match w.hourly with
        | some hp => { s2 with windHistory := jsSliceLast5 (middaySpeeds hp.fst hp.snd) }
        | none => s2
      { s3 with treeDensity := some 5, isLoading := false }
  | FetchOutcome1.ok w elements =>
      let s1 := { s with coords := some (lat, lon) }
      let s2 := match w.current_weather with
        | some ws => { s1 with windSpeed := some ws }
        | none => s1
      let s3 := match w.hourly with
        | some hp => { s2 with windHistory := jsSliceLast5 (middaySpeeds hp.fst hp.snd) }
        | none => s2
      { s3 with treeDensity := some (jsOrElse5 elements), isLoading := false }

/-- Variant 1 scoring expression (App.jsx:135-144): null unless both
windSpeed and treeDensity are set, else the clamped, one-decimal linear
formula.  rand is the value drawn by the Math.random() call. -/
def coconutProbability (windSpeed treeDensity : Option ℝ) (timeExposure rand : ℝ) :
    Option ℝ :=
  match windSpeed, treeDensity with
  | some w, some t =>
      some (roundTo1 (min 100
        ((10 + w * 2 + rand * 5) * 5 * (t / 20) * (timeExposure / 1440))))
  | _, _ => none

/-- Variant 1 scoring read off the component state. -/
def coconutProbabilityOf (s : AppState1) (rand : ℝ) : Option ℝ :=
  coconutProbability s.windSpeed s.treeDensity s.timeExposure rand

/-- Tier expression (App.jsx:146-152).  The probability string is null or a
toFixed output; the only falsy string is empty, which toFixed never
returns, so a non-null probability is classified by the numeric
comparisons (JavaScript coerces the string back to its number). -/
def dangerLevel (p : Option ℝ) : String :=
  match p with
  | none => ""
  | some q => if q > 70 then "danger" else if q > 40 then "warning" else "safe"

/-- Variant 1 manual-submit handler (App.jsx:128-133): latP and lonP are the
parseFloat results of the two text fields; the fetch runs only when
neither is NaN, otherwise the state is untouched. -/
def handleManualSubmit1 (s : AppState1) (latP lonP : JsNumber) (o : FetchOutcome1) :
    AppState1 :=
  if !jsIsNaN latP && !jsIsNaN lonP then fetchData1 s latP lonP o else s

/-- Numeric value of a list of decimal digit characters. -/
def digitsToNat (l : List Char) : ℕ :=
  l.foldl (fun a c => 10 * a + (c.toNat - 48)) 0

/-- JavaScript parseInt on the decimal strings a number input can hold: an
optional sign followed by leading digits; NaN (none) when no digit leads. -/
def jsParseInt (s : String) : Option ℤ :=
  match s.data with
  | [] => none
  | c :: rest =>
    if c = '-' then
      match rest.takeWhile Char.isDigit with
      | [] => none
      | d => some (-(digitsToNat d : ℤ))
    else if c = '+' then
      match rest.takeWhile Char.isDigit with
      | [] => none
      | d => some (digitsToNat d)
    else
      match (c :: rest).takeWhile Char.isDigit with
      | [] => none
      | d => some (digitsToNat d)

/-- Exposure-minutes onChange handler (App.jsx:277-279):
setTimeExposure(parseInt(value) || 0), so a failed parse or a parsed zero
stores 0 and any other parsed integer, negative ones included, is stored. -/
def exposureFromInput (v : String) : ℝ :=
  match jsParseInt v with
  | some n => if n = 0 then 0 else (n : ℝ)
  | none => 0

/-- String typed into the exposure field for the reachability argument. -/
def minusTenInput : String := "-10"

/-- Raw current block of the forecast response in variant 2
(App.jsx:378-386). -/
structure CurrentFields where
  wind_speed_10m : ℝ
  precipitation : ℝ
  rain : ℝ
  temperature_2m : ℝ
  relative_humidity_2m : ℝ

/-- Weather snapshot stored by variant 2 (App.jsx:379-386). -/
structure WeatherData where
  windSpeed : ℝ
  precipitation : ℝ
  rain : ℝ
  temperature : ℝ
  humidity : ℝ
  isStormy : Bool

/-- Construction of the snapshot from the response: isStormy is derived as
wind_speed_10m > 8 (App.jsx:385). -/
def mkWeatherData (c : CurrentFields) : WeatherData :=
  { windSpeed := c.wind_speed_10m, precipitation := c.precipitation,
    rain := c.rain, temperature := c.temperature_2m,
    humidity := c.relative_humidity_2m,
    isStormy := decide (c.wind_speed_10m > 8) }

/-- Climate impact coefficients of variant 2 (App.jsx:353-359). -/
structure ClimateFactors where
  windImpact : ℝ
  rainImpact : ℝ
  stormImpact : ℝ
  humidityImpact : ℝ
  temperatureImpact : ℝ

/-- The coefficient values of the source object literal. -/
def climateFactors : ClimateFactors :=
  { windImpact := 2.5, rainImpact := 1.3, stormImpact := 3.0,
    humidityImpact := 0.8, temperatureImpact := 1.1 }

/-- Risk accumulator of calculateDanger before scaling (App.jsx:434-440):
the power-law base then the four conditional multipliers, in source
order. -/
def rawRisk (w : WeatherData) : ℝ :=
  let risk0 := 10 + w.windSpeed ^ (1.5 : ℝ) * climateFactors.windImpact
  let risk1 := if w.rain > 0 then risk0 * climateFactors.rainImpact else risk0
  let risk2 := if w.isStormy then risk1 * climateFactors.stormImpact else risk1
  let risk3 := if w.temperature > 30 then risk2 * climateFactors.temperatureImpact else risk2
  if w.humidity < 40 then risk3 * climateFactors.humidityImpact else risk3

/-- Variant 2 scoring function (App.jsx:430-447): null without a weather
snapshot, else the risk scaled by tree density and exposure, clamped at
100 and rounded to one decimal. -/
def calculateDanger (weatherData : Option WeatherData) (treeDensity timeExposure : ℝ) :
    Option ℝ :=
  match weatherData with
  | none => none
  | some w =>
      some (roundTo1 (min 100 (rawRisk w * (treeDensity / 15) * (timeExposure / 120))))

/-- React state of variant 2 (App.jsx:338-346). -/
structure AppState2 where
  coords : Option (JsNumber × JsNumber)
  weatherData : Option WeatherData
  treeDensity : ℝ
  timeExposure : ℝ
  useManualTrees : Bool
  isLoading : Bool

/-- Initial state of variant 2: weather null, tree density 5, exposure 30. -/
def initialState2 : AppState2 :=
  { coords := none, weatherData := none, treeDensity := 5,
    timeExposure := 30, useManualTrees := false, isLoading := false }

/-- Outcome of the awaited calls of fetchData in variant 2: the weather fetch
throws, the tree fetch throws after the weather part completed, or
everything issued settles. -/
inductive FetchOutcome2 where
  | weatherFail : FetchOutcome2
  | treeFail : Option CurrentFields → FetchOutcome2
  | ok : Option CurrentFields → Option ℕ → FetchOutcome2

/-- Current block carried by a variant-2 outcome, if any. -/
def currentOf2 : FetchOutcome2 → Option CurrentFields
  | FetchOutcome2.weatherFail => none
  | FetchOutcome2.treeFail c => c
  | FetchOutcome2.ok c _ => c

/-- Variant 2 fetchData (App.jsx:367-402) as one state transition: weather
data is reset to null and coords stored before the try block; the tree
query runs only when useManualTrees is off; any throw sets treeDensity to
5; finally clears isLoading. -/
def fetchData2 (s : AppState2) (lat lon : JsNumber) (o : FetchOutcome2) : AppState2 :=
  let s0 := { s with weatherData := none, coords := some (lat, lon) }
  match o with
  | FetchOutcome2.weatherFail =>
      { s0 with treeDensity := 5, isLoading := false }
  | FetchOutcome2.treeFail cur =>
      let s1 := match cur with
        | some c => { s0 with weatherData := some (mkWeatherData c) }
        | none => s0
      { s1 with treeDensity := 5, isLoading := false }
  | FetchOutcome2.ok cur elements =>
      let s1 := match cur with
        | some c => { s0 with weatherData := some (mkWeatherData c) }
        | none => s0
      if s.useManualTrees then { s1 with isLoading := false }
      else { s1 with treeDensity := jsOrElse5 elements, isLoading := false }

/-- Variant 2 scoring read off the component state. -/
def calculateDangerOf (s : AppState2) : Option ℝ :=
  calculateDanger s.weatherData s.treeDensity s.timeExposure

/-- Variant 2 manual-submit handler (App.jsx:418-423), same guard as
variant 1. -/
def handleManualSubmit2 (s : AppState2) (latP lonP : JsNumber) (o : FetchOutcome2) :
    AppState2 :=
  if !jsIsNaN latP && !jsIsNaN lonP then fetchData2 s latP lonP o else s

/-- Predicate packaging the clamp property of an optional probability. -/
def inRange0To100 (o : Option ℝ) : Prop :=
  ∀ p : ℝ, o = some p → 0 ≤ p ∧ p ≤ 100

/-- Pointwise comparison of two optional probabilities. -/
def optionLE (a b : Option ℝ) : Prop :=
  ∀ p q : ℝ, a = some p → b = some q → p ≤ q

/-- Variant 1 state with a previously fetched wind speed and tree count,
used to exercise a later failing request. -/
def staleState1 : AppState1 :=
  { coords := none, windSpeed := some 10, treeDensity := some 10,
    timeExposure := 30, windHistory := [], isLoading := false }

/-- Variant 2 state with a tree density different from the fallback, used to
witness a state change on an accepted submission. -/
def sevenTreesState2 : AppState2 :=
  { coords := none, weatherData := none, treeDensity := 7,
    timeExposure := 30, useManualTrees := false, isLoading := false }

/-- Hourly timestamps of a sample forecast response with six noon entries. -/
def sampleHours : List String :=
  ["d1T12:00", "d2T12:00", "d3T12:00", "d4T12:00", "d5T12:00", "d6T12:00"]

/-- Wind speeds of the sample forecast response. -/
def sampleSpeeds : List ℝ := [1, 2, 3, 4, 5, 6]

/-- Fully successful variant-1 outcome built from the sample response. -/
def sampleOutcome1 : FetchOutcome1 :=
  FetchOutcome1.ok
    { current_weather := some 3, hourly := some (sampleHours, sampleSpeeds) }
    (some 7)

end

theorem roundTo1_mono {x y : ℝ} (h : x ≤ y) : roundTo1 x ≤ roundTo1 y := by
  unfold roundTo1
  have hr : round (10 * x) ≤ round (10 * y) := by
    rw [round_eq, round_eq]
    exact Int.floor_le_floor (by linarith)
  have hc : ((round (10 * x) : ℤ) : ℝ) ≤ ((round (10 * y) : ℤ) : ℝ) := by
    exact_mod_cast hr
  linarith

theorem roundTo1_nonneg {x : ℝ} (h : 0 ≤ x) : 0 ≤ roundTo1 x := by
  have h0 : roundTo1 0 = 0 := by
    unfold roundTo1
    norm_num
  have := roundTo1_mono h
  rw [h0] at this
  exact this

theorem roundTo1_le_hundred {x : ℝ} (h : x ≤ 100) : roundTo1 x ≤ 100 := by
  have h0 : roundTo1 100 = 100 := by
    unfold roundTo1
    rw [show (10 : ℝ) * 100 = ((1000 : ℤ) : ℝ) by norm_num, round_intCast]
    norm_num
  have := roundTo1_mono h
  rw [h0] at this
  exact this

/-- C5: the danger tier is a deterministic total function of the probability
alone: safe when the probability is at most 40, warning when it is above 40
and at most 70, danger when it is above 70. -/
theorem dangerLevel_total (p : ℝ) :
    (p ≤ 40 → dangerLevel (some p) = "safe") ∧
    (40 < p → p ≤ 70 → dangerLevel (some p) = "warning") ∧
    (70 < p → dangerLevel (some p) = "danger") := by
  refine ⟨?_, ?_, ?_⟩
  · intro h
    simp only [dangerLevel]
    rw [if_neg (by linarith), if_neg (by linarith)]
  · intro h1 h2
    simp only [dangerLevel]
    rw [if_neg (by linarith), if_pos (by linarith)]
  · intro h
    simp only [dangerLevel]
    rw [if_pos (by linarith)]

theorem dangerLevel_total_witness :
    dangerLevel (some 30) = "safe" ∧ dangerLevel (some 50) = "warning" ∧
    dangerLevel (some 90) = "danger" :=
  ⟨(dangerLevel_total 30).1 (by norm_num),
   (dangerLevel_total 50).2.1 (by norm_num) (by norm_num),
   (dangerLevel_total 90).2.2 (by norm_num)⟩

/-- C7: whenever the tree-density lookup fails, throws, or returns an empty
feature list, the stored tree density is exactly 5, in both variants (in
variant 2 the lookup only runs in automatic mode). -/
theorem treeDensity_fallback_five (s1 : AppState1) (s2 : AppState2)
    (latP lonP : JsNumber) (w : WeatherPayload) (cur : Option CurrentFields)
    (elements : Option ℕ) (hE : elements.getD 0 = 0) (hM : s2.useManualTrees = false) :
    (fetchData1 s1 latP lonP FetchOutcome1.weatherFail).treeDensity = some 5 ∧
    (fetchData1 s1 latP lonP (FetchOutcome1.treeFail w)).treeDensity = some 5 ∧
    (fetchData1 s1 latP lonP (FetchOutcome1.ok w elements)).treeDensity = some 5 ∧
    (fetchData2 s2 latP lonP FetchOutcome2.weatherFail).treeDensity = 5 ∧
    (fetchData2 s2 latP lonP (FetchOutcome2.treeFail cur)).treeDensity = 5 ∧
    (fetchData2 s2 latP lonP (FetchOutcome2.ok cur elements)).treeDensity = 5 := by
  have hj : jsOrElse5 elements = 5 := by
    cases elements with
    | none => rfl
    | some n =>
        simp only [Option.getD] at hE
        simp [jsOrElse5, hE]
  obtain ⟨cw, hl⟩ := w
  cases cw <;> cases hl <;> cases cur <;>
    simp [fetchData1, fetchData2, hj, hM]

theorem treeDensity_fallback_five_witness :
    (fetchData1 initialState1 (JsNumber.num 0) (JsNumber.num 0)
      FetchOutcome1.weatherFail).treeDensity = some 5 ∧
    (fetchData1 initialState1 (JsNumber.num 0) (JsNumber.num 0)
      (FetchOutcome1.treeFail { current_weather := none, hourly := none })).treeDensity
        = some 5 ∧
    (fetchData1 initialState1 (JsNumber.num 0) (JsNumber.num 0)
      (FetchOutcome1.ok { current_weather := none, hourly := none } none)).treeDensity
        = some 5 ∧
    (fetchData2 initialState2 (JsNumber.num 0) (JsNumber.num 0)
      FetchOutcome2.weatherFail).treeDensity = 5 ∧
    (fetchData2 initialState2 (JsNumber.num 0) (JsNumber.num 0)
      (FetchOutcome2.treeFail none)).treeDensity = 5 ∧
    (fetchData2 initialState2 (JsNumber.num 0) (JsNumber.num 0)
      (FetchOutcome2.ok none none)).treeDensity = 5 :=
  treeDensity_fallback_five initialState1 initialState2 (JsNumber.num 0)
    (JsNumber.num 0) { current_weather := none, hourly := none } none none rfl rfl

/-- C8 (amended): a manual coordinate submission whose latitude or longitude
text parses to NaN is ignored and leaves the whole prior state unchanged;
the isNaN-only guard accepts an infinite parse. -/
theorem nan_submission_ignored (s1 : AppState1) (s2 : AppState2)
    (latP lonP : JsNumber) (o1 : FetchOutcome1) (o2 : FetchOutcome2)
    (h : jsIsNaN latP = true ∨ jsIsNaN lonP = true) :
    handleManualSubmit1 s1 latP lonP o1 = s1 ∧
    handleManualSubmit2 s2 latP lonP o2 = s2 := by
  have hb : (!jsIsNaN latP && !jsIsNaN lonP) = false := by
    rcases h with h | h <;> simp [h]
  constructor
  · simp only [handleManualSubmit1, hb]
    simp
  · simp only [handleManualSubmit2, hb]
    simp

theorem nan_submission_ignored_witness :
    handleManualSubmit1 initialState1 JsNumber.nan (JsNumber.num 0)
      FetchOutcome1.weatherFail = initialState1 ∧
    handleManualSubmit2 initialState2 JsNumber.nan (JsNumber.num 0)
      FetchOutcome2.weatherFail = initialState2 :=
  nan_submission_ignored initialState1 initialState2 JsNumber.nan (JsNumber.num 0)
    FetchOutcome1.weatherFail FetchOutcome2.weatherFail (Or.inl rfl)

/-- C8 counterexample: a coordinate that parses to an infinity is not a
finite number, yet the guard lets it through and the submission mutates the
state (here the tree density falls back to 5, overwriting 7). -/
theorem infinite_coordinate_accepted :
    jsIsFinite JsNumber.inf = false ∧
    handleManualSubmit2 sevenTreesState2 JsNumber.inf (JsNumber.num 0)
      FetchOutcome2.weatherFail ≠ sevenTreesState2 := by
  refine ⟨rfl, ?_⟩
  intro h
  have h7 := congrArg AppState2.treeDensity h
  simp [handleManualSubmit2, jsIsNaN, fetchData2, sevenTreesState2] at h7

/-- C10: the scoring expression clamps only from above; the exposure
handler stores parseInt of the typed text, so the typed string "-10" yields
exposure -10 and, with a fetched wind speed of 10 and tree density 10, the
displayed probability is -0.5, strictly below zero. -/
theorem negative_exposure_probability_below_zero :
    exposureFromInput minusTenInput = -10 ∧
    coconutProbability (some 10) (some 10) (exposureFromInput minusTenInput) 0 =
      some (-(1 / 2)) ∧
    (-(1 / 2) : ℝ) < 0 := by
  have h1 : jsParseInt minusTenInput = some (-10) := by rfl
  have hp : exposureFromInput minusTenInput = -10 := by
    simp only [exposureFromInput, h1]
    norm_num
  refine ⟨hp, ?_, by norm_num⟩
  rw [hp]
  simp only [coconutProbability, Option.some.injEq]
  norm_num [roundTo1, min_def, round_eq]

/-- C1: for valid inputs (non-negative wind speed, tree density, exposure
minutes and random draw) the probability computed by either scoring policy
lies in [0,100]. -/
theorem probability_in_range (w t m r prec rain temp hum : ℝ) (stormy : Bool)
    (hw : 0 ≤ w) (ht : 0 ≤ t) (hm : 0 ≤ m) (hr : 0 ≤ r) :
    inRange0To100 (coconutProbability (some w) (some t) m r) ∧
    inRange0To100 (calculateDanger
      (some { windSpeed := w, precipitation := prec, rain := rain,
              temperature := temp, humidity := hum, isStormy := stormy }) t m) := by
  constructor
  · intro p hp
    simp only [coconutProbability, Option.some.injEq] at hp
    have hbase : (0 : ℝ) ≤ 10 + w * 2 + r * 5 := by linarith
    have hx : 0 ≤ (10 + w * 2 + r * 5) * 5 * (t / 20) * (m / 1440) := by
      have h1 : (0 : ℝ) ≤ (10 + w * 2 + r * 5) * 5 :=
        mul_nonneg hbase (by norm_num)
      have h2 : (0 : ℝ) ≤ (10 + w * 2 + r * 5) * 5 * (t / 20) :=
        mul_nonneg h1 (div_nonneg ht (by norm_num))
      exact mul_nonneg h2 (div_nonneg hm (by norm_num))
    rw [← hp]
    exact ⟨roundTo1_nonneg (le_min (by norm_num) hx),
           roundTo1_le_hundred (min_le_left _ _)⟩
  · intro p hp
    simp only [calculateDanger, Option.some.injEq] at hp
    have hpow : 0 ≤ w ^ (1.5 : ℝ) := Real.rpow_nonneg hw _
    have hrisk : 0 ≤ rawRisk
        { windSpeed := w, precipitation := prec, rain := rain,
          temperature := temp, humidity := hum, isStormy := stormy } := by
      simp only [rawRisk, climateFactors]
      split_ifs <;> nlinarith [hpow]
    have hx : 0 ≤ rawRisk
        { windSpeed := w, precipitation := prec, rain := rain,
          temperature := temp, humidity := hum, isStormy := stormy }
          * (t / 15) * (m / 120) :=
      mul_nonneg (mul_nonneg hrisk (div_nonneg ht (by norm_num)))
        (div_nonneg hm (by norm_num))
    rw [← hp]
    exact ⟨roundTo1_nonneg (le_min (by norm_num) hx),
           roundTo1_le_hundred (min_le_left _ _)⟩

theorem probability_in_range_witness :
    inRange0To100 (coconutProbability (some 10) (some 15) 120 0) ∧
    inRange0To100 (calculateDanger
      (some { windSpeed := 10, precipitation := 0, rain := 0,
              temperature := 20, humidity := 50, isStormy := false }) 15 120) :=
  probability_in_range 10 15 120 0 0 0 20 50 false (by norm_num) (by norm_num)
    (by norm_num) (by norm_num)

/-- C2 (amended): the power-law scoring function is deterministic in its
inputs, and the linear formula is deterministic once the value drawn by its
Math.random() call is fixed alongside the other inputs. -/
theorem scoring_deterministic_given_draw (wd : Option WeatherData)
    (ws td : Option ℝ) (t m r1 r2 : ℝ) (h : r1 = r2) :
    calculateDanger wd t m = calculateDanger wd t m ∧
    coconutProbability ws td m r1 = coconutProbability ws td m r2 := by
  subst h
  exact ⟨rfl, rfl⟩

theorem scoring_deterministic_given_draw_witness :
    calculateDanger none 0 0 = calculateDanger none 0 0 ∧
    coconutProbability (some 1) (some 1) 1 0 =
      coconutProbability (some 1) (some 1) 1 0 :=
  scoring_deterministic_given_draw none (some 1) (some 1) 0 1 0 0 rfl

/-- C2 counterexample: with wind 10, tree density 10 and exposure 30 fixed,
two evaluations of the linear formula whose Math.random() calls draw 0 and
1/2 return the different probabilities 1.6 and 1.7. -/
theorem linear_policy_two_draws_differ :
    coconutProbability (some 10) (some 10) 30 0 ≠
      coconutProbability (some 10) (some 10) 30 (1 / 2) := by
  have e1 : coconutProbability (some 10) (some 10) 30 0 = some (8 / 5) := by
    simp only [coconutProbability, Option.some.injEq]
    norm_num [roundTo1, min_def, round_eq]
  have e2 : coconutProbability (some 10) (some 10) 30 (1 / 2) = some (17 / 10) := by
    simp only [coconutProbability, Option.some.injEq]
    norm_num [roundTo1, min_def, round_eq]
  rw [e1, e2]
  intro h
  rw [Option.some.injEq] at h
  norm_num at h

theorem windHistory_fetch1 (s : AppState1) (latP lonP : JsNumber)
    (o : FetchOutcome1) :
    (fetchData1 s latP lonP o).windHistory =
      match hourlyOf1 o with
      | some hp => jsSliceLast5 (middaySpeeds hp.fst hp.snd)
      | none => s.windHistory := by
  cases o with
  | weatherFail => rfl
  | treeFail w =>
      obtain ⟨cw, hl⟩ := w
      cases cw <;> cases hl <;> rfl
  | ok w e =>
      obtain ⟨cw, hl⟩ := w
      cases cw <;> cases hl <;> rfl

/-- C9: a fetch transition keeps the wind history at five or fewer entries,
and when the response carries hourly data the new history is a suffix of
the chronological midday sample list (strictly oldest samples dropped,
order kept), of length exactly five whenever at least five samples exist. -/
theorem wind_history_window (s : AppState1) (latP lonP : JsNumber)
    (o : FetchOutcome1) (hs : s.windHistory.length ≤ 5) :
    (fetchData1 s latP lonP o).windHistory.length ≤ 5 ∧
    ∀ hrs sps, hourlyOf1 o = some (hrs, sps) →
      ((fetchData1 s latP lonP o).windHistory.IsSuffix (middaySpeeds hrs sps) ∧
       (5 ≤ (middaySpeeds hrs sps).length →
         (fetchData1 s latP lonP o).windHistory.length = 5)) := by
  rw [windHistory_fetch1]
  rcases ho : hourlyOf1 o with _ | hp
  · simp only [ho]
    exact ⟨hs, fun hrs sps h => Option.noConfusion h⟩
  · simp only [ho]
    constructor
    · simp only [jsSliceLast5, List.length_drop]
      omega
    · intro hrs sps h
      simp only [Option.some.injEq, Prod.mk.injEq] at h
      obtain ⟨h1, h2⟩ : hp.fst = hrs ∧ hp.snd = sps := by
        constructor
        · rw [h]
        · rw [h]
      rw [← h1, ← h2]
      refine ⟨List.drop_suffix _ _, fun hlen => ?_⟩
      simp only [jsSliceLast5, List.length_drop]
      omega

theorem rpow_three_halves_eq (x : ℝ) (hx : 0 ≤ x) :
    x ^ (1.5 : ℝ) = x * Real.sqrt x := by
  rcases eq_or_lt_of_le hx with h | h
  · rw [← h, Real.zero_rpow (by norm_num), Real.sqrt_zero, mul_zero]
  · rw [show (1.5 : ℝ) = 1 + 1 / 2 by norm_num, Real.rpow_add h, Real.rpow_one,
      Real.sqrt_eq_rpow]

theorem sqrt_ten_gt : (3.162 : ℝ) < Real.sqrt 10 := by
  rw [Real.lt_sqrt (by norm_num)]
  norm_num

theorem sqrt_ten_lt : Real.sqrt 10 < 3.163 := by
  rw [show (3.163 : ℝ) = 3163 / 1000 by norm_num, Real.sqrt_lt' (by norm_num)]
  norm_num

/-- C3: for the power-law policy applied to the snapshot windSpeed 10,
rain 0, isStormy false, temperature 20, humidity 50, with tree density 15
and 120 exposure minutes, no multiplier fires, the risk is 10 + 10^1.5*2.5
and the displayed probability is 89.1, whose tier is danger. -/
theorem power_policy_example :
    calculateDanger
      (some { windSpeed := 10, precipitation := 0, rain := 0,
              temperature := 20, humidity := 50, isStormy := false }) 15 120 =
      some (891 / 10) ∧
    dangerLevel (some (891 / 10)) = "danger" := by
  have hraw : rawRisk
      { windSpeed := 10, precipitation := 0, rain := 0,
        temperature := 20, humidity := 50, isStormy := false } =
      10 + 10 * Real.sqrt 10 * 2.5 := by
    simp only [rawRisk, climateFactors]
    rw [rpow_three_halves_eq 10 (by norm_num)]
    norm_num
  constructor
  · simp only [calculateDanger, Option.some.injEq, hraw]
    rw [show ((15 : ℝ) / 15) = 1 by norm_num, show ((120 : ℝ) / 120) = 1 by norm_num,
      mul_one, mul_one]
    have hgt := sqrt_ten_gt
    have hlt := sqrt_ten_lt
    have hmin : min (100 : ℝ) (10 + 10 * Real.sqrt 10 * 2.5) =
        10 + 10 * Real.sqrt 10 * 2.5 := by
      rw [min_eq_right]
      nlinarith [hlt]
    rw [hmin]
    unfold roundTo1
    rw [round_eq]
    have hfl : ⌊10 * (10 + 10 * Real.sqrt 10 * 2.5) + 1 / 2⌋ = (891 : ℤ) := by
      rw [Int.floor_eq_iff]
      constructor
      · push_cast
        nlinarith [hgt]
      · push_cast
        nlinarith [hlt]
    rw [hfl]
    norm_num
  · simp only [dangerLevel]
    rw [if_pos (by norm_num)]

set_option maxHeartbeats 1600000 in
theorem rawRisk_mono_wind (w1 w2 prec rain temp hum : ℝ)
    (hw1 : 0 ≤ w1) (hw : w1 ≤ w2) :
    rawRisk (mkWeatherData
      { wind_speed_10m := w1, precipitation := prec, rain := rain,
        temperature_2m := temp, relative_humidity_2m := hum }) ≤
    rawRisk (mkWeatherData
      { wind_speed_10m := w2, precipitation := prec, rain := rain,
        temperature_2m := temp, relative_humidity_2m := hum }) := by
  have hpow : w1 ^ (1.5 : ℝ) ≤ w2 ^ (1.5 : ℝ) :=
    Real.rpow_le_rpow hw1 hw (by norm_num)
  have hpos : 0 ≤ w1 ^ (1.5 : ℝ) := Real.rpow_nonneg hw1 _
  simp only [rawRisk, mkWeatherData, climateFactors, decide_eq_true_eq]
  split_ifs <;> nlinarith [hpow, hpos]

/-- C4: holding every other input fixed (the tree density, the exposure,
the drawn jitter, and the raw weather fields, isStormy being derived from
the wind speed as the fetch pipeline derives it), the probability of either
policy is monotonically non-decreasing in the wind speed over its
non-negative domain. -/
theorem probability_monotone_in_wind (w1 w2 t m r prec rain temp hum : ℝ)
    (hw1 : 0 ≤ w1) (hw : w1 ≤ w2) (ht : 0 ≤ t) (hm : 0 ≤ m) :
    optionLE (coconutProbability (some w1) (some t) m r)
      (coconutProbability (some w2) (some t) m r) ∧
    optionLE
      (calculateDanger (some (mkWeatherData
        { wind_speed_10m := w1, precipitation := prec, rain := rain,
          temperature_2m := temp, relative_humidity_2m := hum })) t m)
      (calculateDanger (some (mkWeatherData
        { wind_speed_10m := w2, precipitation := prec, rain := rain,
          temperature_2m := temp, relative_humidity_2m := hum })) t m) := by
  constructor
  · intro p q hp hq
    simp only [coconutProbability, Option.some.injEq] at hp hq
    rw [← hp, ← hq]
    apply roundTo1_mono
    apply min_le_min le_rfl
    have h1 : (10 + w1 * 2 + r * 5) * 5 ≤ (10 + w2 * 2 + r * 5) * 5 := by linarith
    have h2 := mul_le_mul_of_nonneg_right h1 (div_nonneg ht (by norm_num : (0:ℝ) ≤ 20))
    exact mul_le_mul_of_nonneg_right h2 (div_nonneg hm (by norm_num : (0:ℝ) ≤ 1440))
  · intro p q hp hq
    simp only [calculateDanger, Option.some.injEq] at hp hq
    rw [← hp, ← hq]
    apply roundTo1_mono
    apply min_le_min le_rfl
    have h1 := rawRisk_mono_wind w1 w2 prec rain temp hum hw1 hw
    have h2 := mul_le_mul_of_nonneg_right h1 (div_nonneg ht (by norm_num : (0:ℝ) ≤ 15))
    exact mul_le_mul_of_nonneg_right h2 (div_nonneg hm (by norm_num : (0:ℝ) ≤ 120))

theorem probability_monotone_in_wind_witness :
    optionLE (coconutProbability (some 0) (some 15) 120 0)
      (coconutProbability (some 10) (some 15) 120 0) ∧
    optionLE
      (calculateDanger (some (mkWeatherData
        { wind_speed_10m := 0, precipitation := 0, rain := 0,
          temperature_2m := 20, relative_humidity_2m := 50 })) 15 120)
      (calculateDanger (some (mkWeatherData
        { wind_speed_10m := 10, precipitation := 0, rain := 0,
          temperature_2m := 20, relative_humidity_2m := 50 })) 15 120) :=
  probability_monotone_in_wind 0 10 15 120 0 0 0 20 50 (by norm_num)
    (by norm_num) (by norm_num) (by norm_num)

/-- C6 (amended): when the weather lookup fails or carries no usable
current-weather block, variant 2, which clears the previous snapshot at the
start of every request, stores no snapshot and computes null; variant 1
computes null provided no earlier request had already stored a wind speed,
since it never clears that field. -/
theorem failed_weather_lookup_yields_null (s1 : AppState1) (s2 : AppState2)
    (latP lonP : JsNumber) (o1 : FetchOutcome1) (o2 : FetchOutcome2) (r : ℝ)
    (h1 : currentOf1 o1 = none) (hs : s1.windSpeed = none)
    (h2 : currentOf2 o2 = none) :
    coconutProbabilityOf (fetchData1 s1 latP lonP o1) r = none ∧
    (fetchData2 s2 latP lonP o2).weatherData = none ∧
    calculateDangerOf (fetchData2 s2 latP lonP o2) = none := by
  have hws : (fetchData1 s1 latP lonP o1).windSpeed = none := by
    cases o1 with
    | weatherFail => exact hs
    | treeFail w =>
        obtain ⟨cw, hl⟩ := w
        simp only [currentOf1] at h1
        subst h1
        cases hl <;> exact hs
    | ok w e =>
        obtain ⟨cw, hl⟩ := w
        simp only [currentOf1] at h1
        subst h1
        cases hl <;> exact hs
  have hwd : (fetchData2 s2 latP lonP o2).weatherData = none := by
    cases o2 with
    | weatherFail => rfl
    | treeFail cur =>
        simp only [currentOf2] at h2
        subst h2
        rfl
    | ok cur e =>
        simp only [currentOf2] at h2
        subst h2
        simp only [fetchData2]
        split <;> rfl
  refine ⟨?_, hwd, ?_⟩
  · rcases htd : (fetchData1 s1 latP lonP o1).treeDensity with _ | v <;>
      simp [coconutProbabilityOf, coconutProbability, hws, htd]
  · simp only [calculateDangerOf, calculateDanger, hwd]

theorem failed_weather_lookup_yields_null_witness :
    coconutProbabilityOf (fetchData1 initialState1 (JsNumber.num 0)
      (JsNumber.num 0) FetchOutcome1.weatherFail) 0 = none ∧
    (fetchData2 initialState2 (JsNumber.num 0) (JsNumber.num 0)
      FetchOutcome2.weatherFail).weatherData = none ∧
    calculateDangerOf (fetchData2 initialState2 (JsNumber.num 0)
      (JsNumber.num 0) FetchOutcome2.weatherFail) = none :=
  failed_weather_lookup_yields_null initialState1 initialState2 (JsNumber.num 0)
    (JsNumber.num 0) FetchOutcome1.weatherFail FetchOutcome2.weatherFail 0
    rfl rfl rfl

/-- C6 counterexample: variant 1 never clears a previously stored wind
speed, so after a weather lookup that fails, the estimator run from a state
holding an earlier snapshot still returns a numeric probability, not
null. -/
theorem stale_probability_after_failed_lookup :
    currentOf1 FetchOutcome1.weatherFail = none ∧
    coconutProbabilityOf
      (fetchData1 staleState1 (JsNumber.num 0) (JsNumber.num 0)
        FetchOutcome1.weatherFail) 0 ≠ none := by
  refine ⟨rfl, ?_⟩
  simp [coconutProbabilityOf, coconutProbability, fetchData1, staleState1]

theorem wind_history_window_witness :
    (fetchData1 initialState1 (JsNumber.num 0) (JsNumber.num 0)
      sampleOutcome1).windHistory.length ≤ 5 ∧
    (fetchData1 initialState1 (JsNumber.num 0) (JsNumber.num 0)
      sampleOutcome1).windHistory.IsSuffix
        (middaySpeeds sampleHours sampleSpeeds) :=
  ⟨(wind_history_window initialState1 (JsNumber.num 0) (JsNumber.num 0)
      sampleOutcome1 (by simp [initialState1])).1,
   ((wind_history_window initialState1 (JsNumber.num 0) (JsNumber.num 0)
      sampleOutcome1 (by simp [initialState1])).2 sampleHours sampleSpeeds rfl).1⟩
